import Mathlib

/-!
Verification of the onboarding/auth flow of the mindmesh-pathway front-end
(src/src/pages/Index.tsx).  The file shallowly embeds the three components of
that source file: the fixed question list and the Onboarding sequencer's
handlers (handleOptionToggle, handleTextInput, the Previous/Next button
handlers, handleSubmit) and the Auth screen's handleAuth, with the external
backend-as-a-service abstracted by a record of its call outcomes and the
side effects of a run captured as an explicit effect trace.
-/

namespace MindMesh

/-- An answer value stored in the answers record: either a list of selected
option strings (multi-select) or a single string (single-select or free
text).  This mirrors the untyped values placed into the JS object
answers : Record of String to any. -/
inductive AnswerValue where
  | list (xs : List String)
  | str (s : String)
deriving DecidableEq, Repr

/-- The answers object: a mapping from question key to stored value,
absent keys read as undefined (none). -/
def Answers : Type := String → Option AnswerValue

/-- The initial answers object: useState of the empty object. -/
def emptyAnswers : Answers := fun _ => none

/-- The JS object-spread update: setAnswers of spread answers with key
assigned v, i.e. all other keys unchanged. -/
def setAnswer (a : Answers) (k : String) (v : AnswerValue) : Answers :=
  fun k2 => if k2 = k then some v else a k2

/-- One static question definition, as in the questions array literal:
fields question, options, key, and the optional flags singleSelect,
isOptional and isText (absent flags read as false). -/
structure Question where
  question : String
  options : List String := []
  key : String
  singleSelect : Bool := false
  isOptional : Bool := false
  isText : Bool := false
deriving DecidableEq, Repr

/-- The five fixed questions of the onboarding questionnaire, transcribed
from the questions array literal in the source. -/
def questions : List Question :=
  [ { question := "What are your primary learning goals?"
    , options := ["Improving skills", "Preparing for exams",
                  "Exploring a new field", "Personal growth"]
    , key := "learning_goals" }
  , { question := "Which domain are you most interested in?"
    , options := ["Technical: Coding", "Technical: AI/ML",
                  "Technical: Cybersecurity", "Non-Technical: Marketing",
                  "Non-Technical: Content Writing", "Non-Technical: Management",
                  "Non-Technical: Design"]
    , key := "domain_interests" }
  , { question := "What is your preferred learning style?"
    , options := ["Video tutorials", "Interactive quizzes", "Reading",
                  "Peer-to-peer learning"]
    , key := "learning_style" }
  , { question := "How much time can you dedicate to learning daily?"
    , options := ["Less than 30 minutes", "1 hour", "2+ hours"]
    , key := "daily_time"
    , singleSelect := true }
  , { question := "Are you preparing for any specific certification, exam, or career goal?"
    , key := "specific_goals"
    , isOptional := true
    , isText := true } ]

/-- The Onboarding component's local state: the currentQuestion index and
the answers object (both useState hooks). -/
structure OnboardingState where
  currentQuestion : Nat
  answers : Answers

/-- The read of answers at currentKey in the multi-select branch of
handleOptionToggle: currentAnswers is answers at currentKey, or the empty
array when the key is absent (the JS or-default).  A plain string stored at
a non-text key never occurs (keys are per-question and the flags are
static), so that case is mapped to the empty list. -/
def readMultiAnswers : Option AnswerValue → List String
  | some (AnswerValue.list xs) => xs
  | some (AnswerValue.str _) => []
  | none => []

/-- The answer list visible at key k of an answers object, through the
or-empty-array read used by both handleOptionToggle and the checkbox
rendering. -/
def answerList (a : Answers) (k : String) : List String :=
  readMultiAnswers (a k)

/-- The core of the multi-select branch: if option is already in the list,
filter it out; otherwise append it (spread of currentAnswers then option). -/
def toggleList (xs : List String) (option : String) : List String :=
  if option ∈ xs then xs.filter (fun a => a ≠ option) else xs ++ [option]

/-- handleOptionToggle from the Onboarding component.  Reads the current
question; for a singleSelect question stores the option as the whole
answer, for a non-text question toggles the option in the stored list, and
otherwise does nothing.  An out-of-range index (impossible under the
component's bounds, see advance and retreat below) is modelled as a
no-op. -/
def handleOptionToggle (s : OnboardingState) (option : String) : OnboardingState :=
  match questions[s.currentQuestion]? with
  | none => s
  | some q =>
    if q.singleSelect then
      { s with answers := setAnswer s.answers q.key (AnswerValue.str option) }
    else if !q.isText then
      let currentAnswers := readMultiAnswers (s.answers q.key)
      let updatedAnswers := toggleList currentAnswers option
      { s with answers := setAnswer s.answers q.key (AnswerValue.list updatedAnswers) }
    else s

/-- handleTextInput from the Onboarding component: overwrites the current
question's answer with the raw text value. -/
def handleTextInput (s : OnboardingState) (value : String) : OnboardingState :=
  match questions[s.currentQuestion]? with
  | none => s
  | some q => { s with answers := setAnswer s.answers q.key (AnswerValue.str value) }

/-- The Previous button's handler: rendered only when currentQuestion is
positive, in which case it decrements the index; with the control absent on
the first question, the index is unchanged there. -/
def retreat (s : OnboardingState) : OnboardingState :=
  if s.currentQuestion > 0 then
    { s with currentQuestion := s.currentQuestion - 1 }
  else s

/-- The Next / Complete button's handler: when currentQuestion is below
questions.length - 1 the Next button increments the index; otherwise the
Complete button triggers handleSubmit.  The Bool records whether submission
was triggered. -/
def advance (s : OnboardingState) : OnboardingState × Bool :=
  if s.currentQuestion < questions.length - 1 then
    ({ s with currentQuestion := s.currentQuestion + 1 }, false)
  else (s, true)

/-- The JS or-default read used by handleSubmit (answers at key, or-else a
default): undefined and the empty string are falsy and yield the default;
an array (even an empty one) and a non-empty string are truthy and are kept
as stored. -/
def jsOr (v : Option AnswerValue) (d : AnswerValue) : AnswerValue :=
  match v with
  | none => d
  | some (AnswerValue.str "") => d
  | some x => x

/-- The onboarding response record inserted by handleSubmit into the
onboarding responses table.  Field values keep the loose JS shape: each is
an AnswerValue. -/
structure ResponseRecord where
  user_id : String
  learning_goals : AnswerValue
  domain_interests : AnswerValue
  learning_style : AnswerValue
  daily_time : AnswerValue
  specific_goals : AnswerValue
deriving DecidableEq, Repr

/-- The record literal handleSubmit builds from the answers object: each
field is the stored answer or-else its literal default (empty array for
the three multi-select keys, empty string for daily time and the free-text
goal). -/
def buildResponseRecord (userId : String) (a : Answers) : ResponseRecord :=
  { user_id := userId
  , learning_goals := jsOr (a "learning_goals") (AnswerValue.list [])
  , domain_interests := jsOr (a "domain_interests") (AnswerValue.list [])
  , learning_style := jsOr (a "learning_style") (AnswerValue.list [])
  , daily_time := jsOr (a "daily_time") (AnswerValue.str "")
  , specific_goals := jsOr (a "specific_goals") (AnswerValue.str "") }

/-- Outcomes of the backend calls handleSubmit makes, abstracting the
remote service: getUser yields a user id or nothing, and each of the two
table calls either succeeds or yields an error message. -/
structure SubmitBackend where
  getUserResult : Option String
  insertResponseError : Option String
  updateStatusError : Option String

/-- One observable side effect of a handleSubmit run. -/
inductive SubmitEffect where
  | insertResponse (r : ResponseRecord)
  | updateStatus (userId : String) (isCompleted : Bool) (completedAt : String)
  | navigate (route : String)
  | errorToast (message : String)
deriving DecidableEq, Repr

/-- handleSubmit from the Onboarding component, as the trace of its side
effects: fetch the user (a missing user throws), insert the response
record, then update the onboarding status row to completed with the
completion timestamp, then navigate to the dashboard; any thrown error is
caught and shown as a destructive toast with the error message.  now
stands for the ISO timestamp taken at the call. -/
def handleSubmit (b : SubmitBackend) (a : Answers) (now : String) : List SubmitEffect :=
  match b.getUserResult with
  | none => [SubmitEffect.errorToast "No user found"]
  | some uid =>
    SubmitEffect.insertResponse (buildResponseRecord uid a) ::
    match b.insertResponseError with
    | some e => [SubmitEffect.errorToast e]
    | none =>
      SubmitEffect.updateStatus uid true now ::
      match b.updateStatusError with
      | some e => [SubmitEffect.errorToast e]
      | none => [SubmitEffect.navigate "/dashboard"]

/-- Substring test over character lists, modelling the JS String includes
method: pat occurs contiguously in the scanned list. -/
def subChars (pat : List Char) : List Char → Bool
  | [] => pat.isEmpty
  | c :: rest => startChars pat (c :: rest) || subChars pat rest
where
  /-- pat occurs at the very start of the scanned list. -/
  startChars : List Char → List Char → Bool
  | [], _ => true
  | _ :: _, [] => false
  | a :: as, b :: bs => a == b && startChars as bs

/-- The JS String includes check on strings. -/
def strIncludes (s pat : String) : Bool :=
  subChars pat.toList s.toList

/-- The JS toLowerCase call, modelled character-wise (the messages it is
applied to are plain ASCII). -/
def jsToLower (s : String) : String :=
  String.mk (s.toList.map Char.toLower)

/-- Outcomes of the backend calls handleAuth can make.  signIn and the
profile query belong to the login branch, signUp and the onboarding-status
insert to the sign-up branch; each is the outcome the remote service would
return for this run. -/
structure AuthBackend where
  signInError : Option String
  getUserAfterLogin : Option String
  profileQueryResult : Except String (Option String)
  signUpOutcome : Except String (Option String)
  onboardingInsertError : Option String

/-- One observable side effect of a handleAuth run.  Toasts carry title,
description and whether the variant is destructive. -/
inductive AuthEffect where
  | setLoading (b : Bool)
  | signInCall
  | getUserCall
  | profileQueryCall (userId : String)
  | signUpCall
  | delayMs (n : Nat)
  | insertOnboardingStatus (userId : String) (isCompleted : Bool) (createdAt : String)
  | toast (title : String) (description : String) (destructive : Bool)
  | navigate (route : String)
deriving DecidableEq, Repr

/-- The outer catch block's toast: title Error, description the thrown
error's message or-else the generic fallback, destructive variant. -/
def genericErrorToast (message : String) : AuthEffect :=
  AuthEffect.toast "Error"
    (if message = "" then "An error occurred during authentication" else message)
    true

/-- The login branch of handleAuth up to its first thrown error: the
effects performed so far paired with the thrown error message, if any. -/
def signInBody (b : AuthBackend) : List AuthEffect × Option String :=
  match b.signInError with
  | some e => ([AuthEffect.signInCall], some e)
  | none =>
    match b.getUserAfterLogin with
    | none => ([AuthEffect.signInCall, AuthEffect.getUserCall],
               some "No user found after login")
    | some uid =>
      match b.profileQueryResult with
      | Except.error _ =>
        ([AuthEffect.signInCall, AuthEffect.getUserCall,
          AuthEffect.profileQueryCall uid],
         some "Failed to verify user profile")
      | Except.ok none =>
        ([AuthEffect.signInCall, AuthEffect.getUserCall,
          AuthEffect.profileQueryCall uid],
         some "Profile not found. Please contact support.")
      | Except.ok (some _) =>
        ([AuthEffect.signInCall, AuthEffect.getUserCall,
          AuthEffect.profileQueryCall uid, AuthEffect.navigate "/dashboard"],
         none)

/-- The body of the sign-up branch's inner try: sign up; on a returned
user, wait the fixed 2000 ms delay for the profile trigger, insert the
initial onboarding-status row (is_completed false, created_at the current
timestamp), and on success show the success toast and navigate to
onboarding.  A missing user with no error does nothing further.  Returns
the effects performed and the thrown error message, if any. -/
def signUpBody (b : AuthBackend) (now : String) : List AuthEffect × Option String :=
  match b.signUpOutcome with
  | Except.error e => ([AuthEffect.signUpCall], some e)
  | Except.ok none => ([AuthEffect.signUpCall], none)
  | Except.ok (some uid) =>
    match b.onboardingInsertError with
    | some _ =>
      ([AuthEffect.signUpCall, AuthEffect.delayMs 2000,
        AuthEffect.insertOnboardingStatus uid false now],
       some "Failed to initialize onboarding")
    | none =>
      ([AuthEffect.signUpCall, AuthEffect.delayMs 2000,
        AuthEffect.insertOnboardingStatus uid false now,
        AuthEffect.toast "Success"
          "Account created successfully! Please check your email to verify your account."
          false,
        AuthEffect.navigate "/onboarding"],
       none)

/-- The inner catch of the sign-up branch: an error whose message includes
"User already registered", or whose lowercased message includes
"already exists", is downgraded to the Account Exists toast and swallowed
(the handler returns); any other error is re-thrown to the outer catch. -/
def signUpFlow (b : AuthBackend) (now : String) : List AuthEffect × Option String :=
  match signUpBody b now with
  | (effs, none) => (effs, none)
  | (effs, some msg) =>
    if strIncludes msg "User already registered"
        || strIncludes (jsToLower msg) "already exists" then
      (effs ++ [AuthEffect.toast "Account Exists"
                  "An account with this email already exists. Please sign in instead."
                  true],
       none)
    else (effs, some msg)

/-- handleAuth from the Auth component, as the trace of its side effects:
sets the loading flag, runs the login or sign-up flow, shows the generic
destructive toast for any error that reached the outer catch, and finally
resets the loading flag. -/
def handleAuth (b : AuthBackend) (isLogin : Bool) (now : String) : List AuthEffect :=
  let (effs, err) := if isLogin then signInBody b else signUpFlow b now
  AuthEffect.setLoading true ::
    effs ++
    (match err with
     | some m => [genericErrorToast m]
     | none => []) ++
    [AuthEffect.setLoading false]

/-! ## Helper lemmas -/

lemma mem_toggleList (xs : List String) (t o : String) :
    o ∈ toggleList xs t ↔ (if o = t then o ∉ xs else o ∈ xs) := by
  unfold toggleList
  by_cases ht : t ∈ xs
  · by_cases ho : o = t
    · subst ho; simp [ht, List.mem_filter]
    · simp [ht, ho, List.mem_filter]
  · by_cases ho : o = t
    · subst ho; simp [ht]
    · simp [ht, ho]

lemma foldl_toggleList_parity (o : String) (ts : List String) :
    ∀ xs : List String,
      (o ∈ ts.foldl toggleList xs ↔ ((o ∈ xs) ↔ ts.count o % 2 = 0)) := by
  induction ts with
  | nil => intro xs; simp
  | cons t ts ih =>
    intro xs
    rw [List.foldl_cons, ih (toggleList xs t), mem_toggleList]
    by_cases h : o = t
    · subst h
      by_cases hm : o ∈ xs <;> simp [hm, List.count_cons] <;> omega
    · simp [h, List.count_cons]

lemma getElem?_questions (i : Nat) (hq : i < questions.length) :
    questions[i]? = some questions[i] :=
  List.getElem?_eq_getElem hq

lemma handleOptionToggle_multi (s : OnboardingState) (i : Nat)
    (hq : i < questions.length) (hcur : s.currentQuestion = i)
    (hss : questions[i].singleSelect = false)
    (hit : questions[i].isText = false) (o : String) :
    handleOptionToggle s o =
      { s with answers := (setAnswer s.answers questions[i].key
          (AnswerValue.list
            (toggleList (readMultiAnswers (s.answers questions[i].key)) o))) } := by
  unfold handleOptionToggle
  rw [hcur, getElem?_questions i hq]
  simp [hss, hit]

lemma foldl_handleOptionToggle_multi (i : Nat) (hq : i < questions.length)
    (hss : questions[i].singleSelect = false)
    (hit : questions[i].isText = false) (ts : List String) :
    ∀ s : OnboardingState, s.currentQuestion = i →
      answerList (ts.foldl handleOptionToggle s).answers questions[i].key
          = ts.foldl toggleList (answerList s.answers questions[i].key)
        ∧ (ts.foldl handleOptionToggle s).currentQuestion = i := by
  induction ts with
  | nil => intro s hcur; exact ⟨rfl, hcur⟩
  | cons t ts ih =>
    intro s hcur
    rw [List.foldl_cons, List.foldl_cons,
        handleOptionToggle_multi s i hq hcur hss hit t]
    have := ih { s with answers := (setAnswer s.answers questions[i].key
        (AnswerValue.list
          (toggleList (readMultiAnswers (s.answers questions[i].key)) t))) } hcur
    rw [this.1]
    refine ⟨?_, this.2⟩
    simp [answerList, setAnswer, readMultiAnswers]

/-! ## Claim theorems -/

/-- C1: for every sequence of toggleOption calls applied to a multi-select
question (neither singleSelect nor isText), starting from an empty answer
set, the resulting answer value for that question's key contains exactly
the options toggled an odd number of times. -/
theorem multi_select_toggle_parity (i : Nat) (ts : List String) (o : String)
    (hq : i < questions.length)
    (hss : questions[i].singleSelect = false)
    (hit : questions[i].isText = false) :
    o ∈ answerList
          (ts.foldl handleOptionToggle
            { currentQuestion := i, answers := emptyAnswers }).answers
          questions[i].key
      ↔ Odd (ts.count o) := by
  have h := (foldl_handleOptionToggle_multi i hq hss hit ts
      { currentQuestion := i, answers := emptyAnswers } rfl).1
  rw [h]
  have hp := foldl_toggleList_parity o ts
      (answerList emptyAnswers questions[i].key)
  simp only [answerList, emptyAnswers, readMultiAnswers] at hp ⊢
  rw [hp, Nat.odd_iff]
  simp only [List.not_mem_nil, false_iff]
  omega

/-- C1 witness: on the learning-style question (index 2), toggling
Reading, Video tutorials, Reading leaves exactly the odd-count option
Video tutorials selected. -/
theorem multi_select_toggle_parity_witness :
    "Video tutorials" ∈ answerList
          ((["Reading", "Video tutorials", "Reading"].foldl handleOptionToggle
            { currentQuestion := 2, answers := emptyAnswers }).answers)
          (questions[2].key)
      ↔ Odd (["Reading", "Video tutorials", "Reading"].count "Video tutorials") :=
  multi_select_toggle_parity 2 ["Reading", "Video tutorials", "Reading"]
    "Video tutorials" (by decide) (by decide) (by decide)

/-- C2: for a single-select question, toggleOption replaces the stored
answer: after toggling option A and then option B, the stored answer at
that question's key is exactly the single string B, never a pair. -/
theorem single_select_replaces (s : OnboardingState) (i : Nat)
    (hq : i < questions.length) (hcur : s.currentQuestion = i)
    (hss : questions[i].singleSelect = true) (A B : String) :
    (handleOptionToggle (handleOptionToggle s A) B).answers questions[i].key
      = some (AnswerValue.str B) := by
  unfold handleOptionToggle
  rw [hcur, getElem?_questions i hq]
  simp only [hss, if_true]
  rw [getElem?_questions i hq]
  simp [hss, setAnswer]

/-- C2 witness: on the daily-time question (index 3), toggling 1 hour then
2+ hours stores exactly 2+ hours. -/
theorem single_select_replaces_witness :
    (handleOptionToggle
        (handleOptionToggle { currentQuestion := 3, answers := emptyAnswers }
          "1 hour")
        "2+ hours").answers questions[3].key
      = some (AnswerValue.str "2+ hours") :=
  single_select_replaces { currentQuestion := 3, answers := emptyAnswers } 3
    (by decide) rfl (by decide) "1 hour" "2+ hours"

/-- C3: with the current index in bounds, retreat at index 0 leaves the
state unchanged, advance at the last index triggers submission without
incrementing, retreat otherwise decrements by one, advance otherwise
increments by one without submitting, and both keep the index within
bounds. -/
theorem index_navigation (s : OnboardingState)
    (h : s.currentQuestion < questions.length) :
    (s.currentQuestion = 0 → retreat s = s)
    ∧ (s.currentQuestion = questions.length - 1 → advance s = (s, true))
    ∧ (0 < s.currentQuestion →
        (retreat s).currentQuestion = s.currentQuestion - 1)
    ∧ (s.currentQuestion < questions.length - 1 →
        advance s = ({ s with currentQuestion := s.currentQuestion + 1 }, false))
    ∧ (retreat s).currentQuestion < questions.length
    ∧ (advance s).1.currentQuestion < questions.length := by
  unfold retreat advance
  refine ⟨fun h0 => ?_, fun hl => ?_, fun hp => ?_, fun hlt => ?_, ?_, ?_⟩
  · simp [h0]
  · have : ¬ s.currentQuestion < questions.length - 1 := by
      rw [hl]; omega
    simp [this]
  · rw [if_pos hp]
  · rw [if_pos hlt]
  · split
    · show s.currentQuestion - 1 < questions.length
      omega
    · exact h
  · split
    · rename_i hc
      show s.currentQuestion + 1 < questions.length
      omega
    · exact h

/-- C3 witness: at index 0 of the five questions, retreat is the identity,
and at index 4 advance triggers submission. -/
theorem index_navigation_witness :
    retreat { currentQuestion := 0, answers := emptyAnswers }
        = { currentQuestion := 0, answers := emptyAnswers }
      ∧ advance { currentQuestion := 4, answers := emptyAnswers }
        = ({ currentQuestion := 4, answers := emptyAnswers }, true) :=
  ⟨(index_navigation { currentQuestion := 0, answers := emptyAnswers }
      (by decide)).1 rfl,
   (index_navigation { currentQuestion := 4, answers := emptyAnswers }
      (by decide)).2.1 (by decide)⟩

lemma handleOptionToggle_cases (s : OnboardingState) (i : Nat) (o : String)
    (hq : i < questions.length) (hcur : s.currentQuestion = i) :
    handleOptionToggle s o =
      if questions[i].singleSelect then
        { s with answers := (setAnswer s.answers questions[i].key
            (AnswerValue.str o)) }
      else if !questions[i].isText then
        { s with answers := (setAnswer s.answers questions[i].key
            (AnswerValue.list
              (toggleList (readMultiAnswers (s.answers questions[i].key)) o))) }
      else s := by
  unfold handleOptionToggle
  rw [hcur, getElem?_questions i hq]

/-- C10: advancing or retreating leaves the answers mapping unchanged;
toggleOption and setText leave the current index unchanged and change no
answer entry other than the current question's key. -/
theorem frame_conditions (s : OnboardingState) (o v k : String)
    (h : s.currentQuestion < questions.length) :
    (retreat s).answers = s.answers
    ∧ (advance s).1.answers = s.answers
    ∧ (handleOptionToggle s o).currentQuestion = s.currentQuestion
    ∧ (handleTextInput s v).currentQuestion = s.currentQuestion
    ∧ (k ≠ questions[s.currentQuestion].key →
        (handleOptionToggle s o).answers k = s.answers k
        ∧ (handleTextInput s v).answers k = s.answers k) := by
  rw [handleOptionToggle_cases s s.currentQuestion o h rfl]
  refine ⟨?_, ?_, ?_, ?_, fun hk => ⟨?_, ?_⟩⟩
  · unfold retreat; split <;> rfl
  · unfold advance; split <;> rfl
  · split_ifs <;> rfl
  · unfold handleTextInput
    rw [getElem?_questions s.currentQuestion h]
  · split_ifs <;> simp [setAnswer, hk]
  · unfold handleTextInput
    rw [getElem?_questions s.currentQuestion h]
    simp [setAnswer, hk]

/-- C10 witness: at index 0, retreat and advance keep the answers object,
toggling and text input keep the index, and neither touches the unrelated
daily-time key. -/
theorem frame_conditions_witness :
    (retreat { currentQuestion := 0, answers := emptyAnswers }).answers
        = emptyAnswers
    ∧ (handleOptionToggle { currentQuestion := 0, answers := emptyAnswers }
        "Reading").answers "daily_time" = emptyAnswers "daily_time" :=
  ⟨(frame_conditions { currentQuestion := 0, answers := emptyAnswers }
      "Reading" "x" "daily_time" (by decide)).1,
   ((frame_conditions { currentQuestion := 0, answers := emptyAnswers }
      "Reading" "x" "daily_time" (by decide)).2.2.2.2 (by decide)).1⟩

/-- C4: the persisted response record defaults every unanswered key to its
type-appropriate empty value: the three multi-select keys to the empty
list, daily_time and specific_goals to the empty string. -/
theorem submit_defaults_unanswered (uid : String) (a : Answers) :
    (a "learning_goals" = none →
        (buildResponseRecord uid a).learning_goals = AnswerValue.list [])
    ∧ (a "domain_interests" = none →
        (buildResponseRecord uid a).domain_interests = AnswerValue.list [])
    ∧ (a "learning_style" = none →
        (buildResponseRecord uid a).learning_style = AnswerValue.list [])
    ∧ (a "daily_time" = none →
        (buildResponseRecord uid a).daily_time = AnswerValue.str "")
    ∧ (a "specific_goals" = none →
        (buildResponseRecord uid a).specific_goals = AnswerValue.str "") := by
  refine ⟨fun h1 => ?_, fun h2 => ?_, fun h3 => ?_, fun h4 => ?_, fun h5 => ?_⟩
  · simp [buildResponseRecord, jsOr, h1]
  · simp [buildResponseRecord, jsOr, h2]
  · simp [buildResponseRecord, jsOr, h3]
  · simp [buildResponseRecord, jsOr, h4]
  · simp [buildResponseRecord, jsOr, h5]

/-- C4 witness: with no question answered, every field of the persisted
record carries its empty default. -/
theorem submit_defaults_unanswered_witness :
    (buildResponseRecord "u" emptyAnswers).learning_goals = AnswerValue.list []
    ∧ (buildResponseRecord "u" emptyAnswers).domain_interests = AnswerValue.list []
    ∧ (buildResponseRecord "u" emptyAnswers).learning_style = AnswerValue.list []
    ∧ (buildResponseRecord "u" emptyAnswers).daily_time = AnswerValue.str ""
    ∧ (buildResponseRecord "u" emptyAnswers).specific_goals = AnswerValue.str "" :=
  ⟨(submit_defaults_unanswered "u" emptyAnswers).1 rfl,
   (submit_defaults_unanswered "u" emptyAnswers).2.1 rfl,
   (submit_defaults_unanswered "u" emptyAnswers).2.2.1 rfl,
   (submit_defaults_unanswered "u" emptyAnswers).2.2.2.1 rfl,
   (submit_defaults_unanswered "u" emptyAnswers).2.2.2.2 rfl⟩

/-- C5: when a session user is found, handleSubmit issues exactly one
insert of the response record keyed by the user's id; the status update
follows the insert and happens only when the insert succeeded; navigation
to the dashboard happens exactly when both calls succeed; and any failing
call yields an error toast and no navigation. -/
theorem submit_persistence (b : SubmitBackend) (a : Answers) (uid now : String)
    (hu : b.getUserResult = some uid) :
    (List.countP
        (fun e => match e with
          | SubmitEffect.insertResponse _ => true
          | _ => false)
        (handleSubmit b a now) = 1)
    ∧ SubmitEffect.insertResponse (buildResponseRecord uid a)
        ∈ handleSubmit b a now
    ∧ (buildResponseRecord uid a).user_id = uid
    ∧ (SubmitEffect.updateStatus uid true now ∈ handleSubmit b a now
        ↔ b.insertResponseError = none)
    ∧ (∀ e, b.insertResponseError = some e →
        handleSubmit b a now =
          [SubmitEffect.insertResponse (buildResponseRecord uid a),
           SubmitEffect.errorToast e])
    ∧ (∀ e, b.insertResponseError = none → b.updateStatusError = some e →
        handleSubmit b a now =
          [SubmitEffect.insertResponse (buildResponseRecord uid a),
           SubmitEffect.updateStatus uid true now,
           SubmitEffect.errorToast e])
    ∧ (SubmitEffect.navigate "/dashboard" ∈ handleSubmit b a now
        ↔ b.insertResponseError = none ∧ b.updateStatusError = none)
    ∧ (b.insertResponseError = none → b.updateStatusError = none →
        handleSubmit b a now =
          [SubmitEffect.insertResponse (buildResponseRecord uid a),
           SubmitEffect.updateStatus uid true now,
           SubmitEffect.navigate "/dashboard"]) := by
  unfold handleSubmit
  rw [hu]
  rcases hins : b.insertResponseError with _ | e1 <;>
    rcases hupd : b.updateStatusError with _ | e2 <;>
      simp [List.countP_cons, List.countP_nil] <;> rfl

/-- C5 witness: with a user present and both backend calls succeeding, the
trace is exactly the insert, the completed-status update, and the
navigation to the dashboard. -/
theorem submit_persistence_witness :
    handleSubmit
        { getUserResult := some "u", insertResponseError := none,
          updateStatusError := none }
        emptyAnswers "t0" =
      [SubmitEffect.insertResponse (buildResponseRecord "u" emptyAnswers),
       SubmitEffect.updateStatus "u" true "t0",
       SubmitEffect.navigate "/dashboard"] :=
  (submit_persistence
      { getUserResult := some "u", insertResponseError := none,
        updateStatusError := none }
      emptyAnswers "u" "t0" rfl).2.2.2.2.2.2.2 rfl rfl

/-- C6: on sign-in with authentication succeeded but no profile record,
the user sees the Profile not found toast and is not navigated to the
dashboard; if the profile query itself errors, the distinct
profile-lookup-failure toast is shown instead, again without
navigation. -/
theorem signin_profile_missing (b : AuthBackend) (uid now : String)
    (h1 : b.signInError = none) (h2 : b.getUserAfterLogin = some uid) :
    (b.profileQueryResult = Except.ok none →
        AuthEffect.toast "Error" "Profile not found. Please contact support." true
            ∈ handleAuth b true now
        ∧ AuthEffect.navigate "/dashboard" ∉ handleAuth b true now)
    ∧ (∀ e, b.profileQueryResult = Except.error e →
        AuthEffect.toast "Error" "Failed to verify user profile" true
            ∈ handleAuth b true now
        ∧ AuthEffect.navigate "/dashboard" ∉ handleAuth b true now) := by
  constructor
  · intro hp
    simp [handleAuth, signInBody, genericErrorToast, h1, h2, hp]
  · intro e hp
    simp [handleAuth, signInBody, genericErrorToast, h1, h2, hp]

/-- C6 witness: with sign-in succeeding, a user present and the profile
query returning no row, the contact-support toast is shown. -/
theorem signin_profile_missing_witness :
    AuthEffect.toast "Error" "Profile not found. Please contact support." true
      ∈ handleAuth
          { signInError := none, getUserAfterLogin := some "u",
            profileQueryResult := Except.ok none,
            signUpOutcome := Except.ok none, onboardingInsertError := none }
          true "t0" :=
  ((signin_profile_missing
      { signInError := none, getUserAfterLogin := some "u",
        profileQueryResult := Except.ok none,
        signUpOutcome := Except.ok none, onboardingInsertError := none }
      "u" "t0" rfl rfl).1 rfl).1

/-- C7: a sign-up error whose message indicates the email is already
registered is caught and turned into the Account Exists notice: the run's
whole trace is the loading flag, the sign-up call, that single notice, and
the loading reset, with no navigation and no generic error toast. -/
theorem signup_existing_email (b : AuthBackend) (m now : String)
    (he : b.signUpOutcome = Except.error m)
    (hm : (strIncludes m "User already registered"
            || strIncludes (jsToLower m) "already exists") = true) :
    handleAuth b false now =
      [AuthEffect.setLoading true, AuthEffect.signUpCall,
       AuthEffect.toast "Account Exists"
         "An account with this email already exists. Please sign in instead." true,
       AuthEffect.setLoading false] := by
  simp [handleAuth, signUpFlow, signUpBody, he, hm]

/-- C7 witness: the literal backend message User already registered is
downgraded to the Account Exists notice. -/
theorem signup_existing_email_witness :
    handleAuth
        { signInError := none, getUserAfterLogin := none,
          profileQueryResult := Except.ok none,
          signUpOutcome := Except.error "User already registered",
          onboardingInsertError := none }
        false "t0" =
      [AuthEffect.setLoading true, AuthEffect.signUpCall,
       AuthEffect.toast "Account Exists"
         "An account with this email already exists. Please sign in instead." true,
       AuthEffect.setLoading false] :=
  signup_existing_email
    { signInError := none, getUserAfterLogin := none,
      profileQueryResult := Except.ok none,
      signUpOutcome := Except.error "User already registered",
      onboardingInsertError := none }
    "User already registered" "t0" rfl (by decide)

/-- C8: the onboarding-status insert is issued only when the sign-up call
returned a user, and every trace containing it starts with the sign-up
call, then the fixed 2000 ms delay, then the insert, in that strict
order. -/
theorem signup_sequencing (b : AuthBackend) (uid now : String)
    (h : AuthEffect.insertOnboardingStatus uid false now
          ∈ handleAuth b false now) :
    b.signUpOutcome = Except.ok (some uid)
    ∧ ∃ rest, handleAuth b false now =
        AuthEffect.setLoading true :: AuthEffect.signUpCall ::
          AuthEffect.delayMs 2000 ::
          AuthEffect.insertOnboardingStatus uid false now :: rest := by
  rcases hsu : b.signUpOutcome with e | u
  · by_cases hc : (strIncludes e "User already registered"
        || strIncludes (jsToLower e) "already exists") = true
    · simp [handleAuth, signUpFlow, signUpBody, genericErrorToast, hsu, hc] at h
    · simp [handleAuth, signUpFlow, signUpBody, genericErrorToast, hsu, hc] at h
  · rcases u with _ | uid2
    · simp [handleAuth, signUpFlow, signUpBody, hsu] at h
    · rcases hins : b.onboardingInsertError with _ | err
      · simp [handleAuth, signUpFlow, signUpBody, hsu, hins] at h
        subst h
        refine ⟨rfl, [AuthEffect.toast "Success"
            "Account created successfully! Please check your email to verify your account."
            false,
          AuthEffect.navigate "/onboarding", AuthEffect.setLoading false], ?_⟩
        simp [handleAuth, signUpFlow, signUpBody, hsu, hins]
      · have hc : (strIncludes "Failed to initialize onboarding"
            "User already registered"
            || strIncludes (jsToLower "Failed to initialize onboarding")
                "already exists") = false := by decide
        simp [handleAuth, signUpFlow, signUpBody, hsu, hins, hc,
          genericErrorToast] at h
        subst h
        refine ⟨rfl, [genericErrorToast "Failed to initialize onboarding",
          AuthEffect.setLoading false], ?_⟩
        simp [handleAuth, signUpFlow, signUpBody, hsu, hins, hc]

/-- C8 witness: with the sign-up call returning user u and the insert
succeeding, the trace begins with loading, sign-up, the 2000 ms delay and
the insert, in order. -/
theorem signup_sequencing_witness :
    ({ signInError := none, getUserAfterLogin := none,
       profileQueryResult := Except.ok none,
       signUpOutcome := Except.ok (some "u"),
       onboardingInsertError := none } : AuthBackend).signUpOutcome
        = Except.ok (some "u")
    ∧ ∃ rest, handleAuth
          { signInError := none, getUserAfterLogin := none,
            profileQueryResult := Except.ok none,
            signUpOutcome := Except.ok (some "u"),
            onboardingInsertError := none }
          false "t0" =
        AuthEffect.setLoading true :: AuthEffect.signUpCall ::
          AuthEffect.delayMs 2000 ::
          AuthEffect.insertOnboardingStatus "u" false "t0" :: rest :=
  signup_sequencing
    { signInError := none, getUserAfterLogin := none,
      profileQueryResult := Except.ok none,
      signUpOutcome := Except.ok (some "u"),
      onboardingInsertError := none }
    "u" "t0" (by decide)

/-- C9: when the sign-up call returns neither an error nor a user, the
flow does nothing further: the trace is exactly setting and resetting the
loading flag around the sign-up call, with no insert, no toast and no
navigation. -/
theorem signup_no_user_noop (b : AuthBackend) (now : String)
    (h : b.signUpOutcome = Except.ok none) :
    handleAuth b false now =
      [AuthEffect.setLoading true, AuthEffect.signUpCall,
       AuthEffect.setLoading false] := by
  simp [handleAuth, signUpFlow, signUpBody, h]

/-- C9 witness: concrete run of the no-error, no-user sign-up outcome. -/
theorem signup_no_user_noop_witness :
    handleAuth
        { signInError := none, getUserAfterLogin := none,
          profileQueryResult := Except.ok none,
          signUpOutcome := Except.ok none, onboardingInsertError := none }
        false "t0" =
      [AuthEffect.setLoading true, AuthEffect.signUpCall,
       AuthEffect.setLoading false] :=
  signup_no_user_noop
    { signInError := none, getUserAfterLogin := none,
      profileQueryResult := Except.ok none,
      signUpOutcome := Except.ok none, onboardingInsertError := none }
    "t0" rfl

end MindMesh
